import Mathlib

/-!
Verification of the Aifeels conformance validator
(`src/validators/python/validate.py`) against its specification.

The validator is a Python program; we shallowly embed the runtime values it
manipulates and the methods of `ConformanceValidator`.  Numbers are modelled
as rationals (IEEE rounding is abstracted away), Python objects are modelled
by their attribute dictionary, and Python exceptions are modelled with an
explicit error type threaded through `Except`.  The diagnostics the program
prints are modelled as a structured trace, and the calls the harness makes on
the implementation under test are logged, so that "invokes `apply_decay`
exactly n times" is expressible.
-/

/-- The universe of runtime values the validator manipulates: the
JSON-representable values of the test-vector document plus opaque subject
objects (`obj`), which carry their attribute dictionary.  Python's `int` and
`float` are collapsed into one rational-valued `num` constructor. -/
inductive PyVal where
  | none : PyVal
  | bool : Bool → PyVal
  | num : ℚ → PyVal
  | str : String → PyVal
  | list : List PyVal → PyVal
  | dict : List (String × PyVal) → PyVal
  | obj : List (String × PyVal) → PyVal

/-- The Python type name of a value, as it appears in the
`AttributeError` message `f"Cannot access '{key}' in {type(value)}"`. -/
def typeName : PyVal → String
  | PyVal.none => "NoneType"
  | PyVal.bool _ => "bool"
  | PyVal.num _ => "number"
  | PyVal.str _ => "str"
  | PyVal.list _ => "list"
  | PyVal.dict _ => "dict"
  | PyVal.obj _ => "object"

/-- Python's numeric view of a value: `bool` is a numeric type whose values
compare and subtract as `1` and `0`; every non-numeric value has no numeric
view. -/
def pyNumVal : PyVal → Option ℚ
  | PyVal.bool b => some (if b then 1 else 0)
  | PyVal.num q => some q
  | _ => Option.none

mutual
/-- Python `==` on the embedded values: numeric values (including booleans,
which are numbers `1` and `0` in Python) compare by value, strings by
content, lists element-wise, dicts by key set with equal values (insertion
order irrelevant); values of other type pairs are unequal.  Two `obj` values
compare by identity in Python; since the expected side of every comparison
in the validator comes from the JSON document (never an `obj`), identity
equality is abstracted to `false`. -/
def pyEq : PyVal → PyVal → Bool
  | PyVal.bool a, PyVal.bool b => a == b
  | PyVal.bool a, PyVal.num q => (if a then (1 : ℚ) else 0) == q
  | PyVal.num q, PyVal.bool a => q == (if a then (1 : ℚ) else 0)
  | PyVal.num a, PyVal.num b => a == b
  | PyVal.none, PyVal.none => true
  | PyVal.str a, PyVal.str b => a == b
  | PyVal.list a, PyVal.list b => pyEqList a b
  | PyVal.dict a, PyVal.dict b => a.length == b.length && pyEqSub a b
  | _, _ => false
termination_by structural x _ => x

/-- Element-wise Python equality of two lists. -/
def pyEqList : List PyVal → List PyVal → Bool
  | [], [] => true
  | x :: xs, y :: ys => pyEq x y && pyEqList xs ys
  | _, _ => false
termination_by structural a _ => a

/-- Every entry of the first dict is present in the second with a
Python-equal value; dict keys are unique, so together with equal lengths
this is Python's (order-insensitive) dict equality. -/
def pyEqSub : List (String × PyVal) → List (String × PyVal) → Bool
  | [], _ => true
  | (k, v) :: rest, b =>
    (match b.lookup k with
     | some v' => pyEq v v'
     | Option.none => false) && pyEqSub rest b
termination_by structural a _ => a
end

/-- The Python exceptions the validator's control flow distinguishes.
`attributeError` carries the path segment and the type name from the message
`f"Cannot access '{key}' in {type(value)}"`; `keyError` carries the missing
key; `typeError` arises from arithmetic on non-numeric operands; `fault` is
any other exception raised by the implementation under test. -/
inductive PyErr where
  | attributeError (segment : String) (tyName : String)
  | keyError (key : String)
  | typeError (msg : String)
  | fault (msg : String)
deriving Repr, DecidableEq

/-- Split a character list at every `.`, preserving empty segments —
Python's `str.split('.')` on the decoded characters. -/
def splitDot : List Char → List (List Char)
  | [] => [[]]
  | c :: rest =>
    match splitDot rest with
    | [] => []
    | s :: ss => if c = '.' then [] :: s :: ss else (c :: s) :: ss

/-- Python's `path.split('.')`. -/
def pySplit (s : String) : List String :=
  (splitDot s.data).map (fun cs => String.mk cs)

/-- One iteration of `get_nested_value`'s loop body: attribute access if the
value has the attribute, else dict entry if the value is a dict (`KeyError`
when the key is missing), else `AttributeError`.  Data attributes of an
`obj` are its attribute dictionary; built-in method attributes of primitive
values are not modelled (test paths address data). -/
def getSeg (v : PyVal) (key : String) : Except PyErr PyVal :=
  match v with
  | PyVal.obj attrs =>
    match attrs.lookup key with
    | some x => Except.ok x
    | Option.none => Except.error (PyErr.attributeError key (typeName v))
  | PyVal.dict entries =>
    match entries.lookup key with
    | some x => Except.ok x
    | Option.none => Except.error (PyErr.keyError key)
  | _ => Except.error (PyErr.attributeError key (typeName v))

/-- The loop of `get_nested_value`: resolve the segments left to right. -/
def resolveSegs (v : PyVal) : List String → Except PyErr PyVal
  | [] => Except.ok v
  | k :: rest =>
    match getSeg v k with
    | Except.ok v' => resolveSegs v' rest
    | Except.error e => Except.error e

/-- `ConformanceValidator.get_nested_value`: split the path on `.` and
resolve each segment in turn. -/
def get_nested_value (obj : PyVal) (path : String) : Except PyErr PyVal :=
  resolveSegs obj (pySplit path)

/-- The diagnostics the validator prints, as a structured trace.  Each
constructor corresponds to one distinct `print` site of the program. -/
inductive Diag where
  | cannotAccess (path : String) (e : PyErr)
  | mismatch (path : String) (expected actual : PyVal)
  | approxMismatch (path : String) (expected actual : PyVal) (tolerance : ℚ)
  | unknownAssertType (t : String)
  | notCaptured
  | actionMismatch (expected actual : PyVal)
  | unknownSetupAction (a : String)
  | unknownStepAction (a : String)
  | testError (e : PyErr)

/-- An assertion document: `path`, `expected`, `type`, and the optional
`tolerance` (absent field modelled as `Option.none`). -/
structure Assertion where
  path : String
  expected : PyVal
  type : String
  tolerance : Option ℚ

/-- Python subtraction `actual - expected` as used in the `approximately`
branch: defined on numeric values (booleans count as `1`/`0`), raising
`TypeError` otherwise. -/
def pySub (x y : PyVal) : Except PyErr ℚ :=
  match pyNumVal x, pyNumVal y with
  | some a, some b => Except.ok (a - b)
  | _, _ => Except.error (PyErr.typeError "unsupported operand type for -")

/-- `ConformanceValidator.assert_value`.  The `try` in the source catches
exactly the `AttributeError`/`KeyError` raised by `get_nested_value` and
turns it into a failing assertion; a `TypeError` from `abs(actual -
expected)` is not caught here and propagates (`Except.error`). -/
def assert_value (state : PyVal) (a : Assertion) : Except PyErr (Bool × List Diag) :=
  match get_nested_value state a.path with
  | Except.error e => Except.ok (false, [Diag.cannotAccess a.path e])
  | Except.ok actual =>
    if a.type == "equals" then
      if pyEq actual a.expected then Except.ok (true, [])
      else Except.ok (false, [Diag.mismatch a.path a.expected actual])
    else if a.type == "approximately" then
      let tol := a.tolerance.getD (1 / 1000)
      match pySub actual a.expected with
      | Except.error e => Except.error e
      | Except.ok d =>
        if |d| > tol then Except.ok (false, [Diag.approxMismatch a.path a.expected actual tol])
        else Except.ok (true, [])
    else Except.ok (false, [Diag.unknownAssertType a.type])

/-- A Python object's mutable state: its attribute dictionary. -/
abbrev Attrs := List (String × PyVal)

/-- Python `setattr`: overwrite the attribute if present, else append it. -/
def setAttr (a : Attrs) (k : String) (v : PyVal) : Attrs :=
  if (a.lookup k).isSome then
    a.map (fun kv => if kv.1 == k then (k, v) else kv)
  else a ++ [(k, v)]

/-- The implementation under test, as the validator sees it: a constructor
(which may raise), the capability probe `hasattr(state, 'advance_time')`
(a class-level property), and the methods the harness calls.  Each method
transforms the subject's attribute state and may raise. -/
structure IUT where
  init : Except PyErr Attrs
  hasAdvanceTime : Bool
  processEvent : Attrs → PyVal → Except PyErr Attrs
  advanceTime : Attrs → Int → Except PyErr Attrs
  applyDecay : Attrs → Except PyErr Attrs
  recommendedAction : Attrs → Except PyErr PyVal

/-- One call the harness makes on the subject, logged in execution order. -/
inductive SubjCall where
  | processEvent (e : PyVal)
  | advanceTime (seconds : Int)
  | applyDecay
  | recommendedAction

/-- A step document.  `event` and `seconds` are the payload fields read
only under the matching action; non-integer `seconds` would fault in
`range` and is not modelled. -/
structure Step where
  action : String
  event : PyVal
  seconds : Int

/-- A setup document: the action and the optional `initial_state` mapping. -/
structure Setup where
  action : String
  initial_state : Option (List (String × PyVal))

/-- A test document. -/
structure Test where
  id : String
  name : String
  setup : Setup
  steps : List Step
  assertions : List Assertion

/-- Outcome of the step-execution phase: the final subject state, a fault
raised by the subject, or an unknown step action (early `return False`). -/
inductive ExecOut where
  | ok (st : Attrs)
  | fault (e : PyErr)
  | unknownAction (a : String)

/-- The decay fallback loop `for _ in range(intervals): state.apply_decay()`.
Each iteration logs the call; a raising call ends the loop with a fault. -/
def decayLoop (impl : IUT) (st : Attrs) : Nat → ExecOut × List SubjCall
  | 0 => (ExecOut.ok st, [])
  | Nat.succ n =>
    match impl.applyDecay st with
    | Except.ok st' =>
      let r := decayLoop impl st' n
      (r.1, SubjCall.applyDecay :: r.2)
    | Except.error e => (ExecOut.fault e, [SubjCall.applyDecay])

/-- One iteration of `run_test`'s step loop.  For `advance_time` without the
native capability, `intervals = seconds // 300` is Python floor division and
`range` of a negative count is empty, which `(Int.fdiv · 300).toNat`
captures.  `get_recommended_action` stores the query result in the
subject's `_recommended_action` attribute. -/
def execStep (impl : IUT) (st : Attrs) (s : Step) : ExecOut × List SubjCall :=
  if s.action == "process_event" then
    match impl.processEvent st s.event with
    | Except.ok st' => (ExecOut.ok st', [SubjCall.processEvent s.event])
    | Except.error e => (ExecOut.fault e, [SubjCall.processEvent s.event])
  else if s.action == "advance_time" then
    if impl.hasAdvanceTime then
      match impl.advanceTime st s.seconds with
      | Except.ok st' => (ExecOut.ok st', [SubjCall.advanceTime s.seconds])
      | Except.error e => (ExecOut.fault e, [SubjCall.advanceTime s.seconds])
    else
      decayLoop impl st (Int.fdiv s.seconds 300).toNat
  else if s.action == "get_recommended_action" then
    match impl.recommendedAction st with
    | Except.ok v => (ExecOut.ok (setAttr st "_recommended_action" v), [SubjCall.recommendedAction])
    | Except.error e => (ExecOut.fault e, [SubjCall.recommendedAction])
  else (ExecOut.unknownAction s.action, [])

/-- The step loop of `run_test`: execute steps in order; an unknown action
or a subject fault ends the loop. -/
def execSteps (impl : IUT) (st : Attrs) : List Step → ExecOut × List SubjCall
  | [] => (ExecOut.ok st, [])
  | s :: rest =>
    match execStep impl st s with
    | (ExecOut.ok st', cs) =>
      let r := execSteps impl st' rest
      (r.1, cs ++ r.2)
    | other => other

/-- One iteration of `run_test`'s assertion loop: the reserved path
`recommended_action` is handled specially via the `_recommended_action`
attribute (`hasattr` check, then plain `!=` comparison); every other path
goes through `assert_value`. -/
def checkAssertion (st : Attrs) (a : Assertion) : Except PyErr (Bool × List Diag) :=
  if a.path == "recommended_action" then
    match st.lookup "_recommended_action" with
    | Option.none => Except.ok (false, [Diag.notCaptured])
    | some actual =>
      if pyEq actual a.expected then Except.ok (true, [])
      else Except.ok (false, [Diag.actionMismatch a.expected actual])
  else
    assert_value (PyVal.obj st) a

/-- Outcome of the assertion phase: the accumulated `all_passed` flag, or
the exception that escaped the loop. -/
inductive AssertsOut where
  | done (allPassed : Bool)
  | fault (e : PyErr)

/-- The assertion loop of `run_test`: evaluate assertions in order,
conjoining their outcomes; an uncaught exception ends the loop, keeping the
diagnostics already emitted. -/
def checkAssertions (st : Attrs) : List Assertion → AssertsOut × List Diag
  | [] => (AssertsOut.done true, [])
  | a :: rest =>
    match checkAssertion st a with
    | Except.ok (b, ds) =>
      match checkAssertions st rest with
      | (AssertsOut.done b', ds') => (AssertsOut.done (b && b'), ds ++ ds')
      | (AssertsOut.fault e, ds') => (AssertsOut.fault e, ds ++ ds')
    | Except.error e => (AssertsOut.fault e, [])

/-- Apply the optional `initial_state` mapping to a fresh subject,
field by field via `setattr`. -/
def applyInit (st : Attrs) : Option (List (String × PyVal)) → Attrs
  | Option.none => st
  | some kvs => kvs.foldl (fun a kv => setAttr a kv.1 kv.2) st

/-- `ConformanceValidator.run_test`: verdict, emitted diagnostics, and the
log of calls made on the subject.  The surrounding `try` of the source turns
any escaping exception into a `False` verdict (`Diag.testError`). -/
def run_test (impl : IUT) (t : Test) : Bool × List Diag × List SubjCall :=
  if t.setup.action == "initialize" then
    match impl.init with
    | Except.error e => (false, [Diag.testError e], [])
    | Except.ok st0 =>
      match execSteps impl (applyInit st0 t.setup.initial_state) t.steps with
      | (ExecOut.ok st, cs) =>
        match checkAssertions st t.assertions with
        | (AssertsOut.done b, ds) => (b, ds, cs)
        | (AssertsOut.fault e, ds) => (false, ds ++ [Diag.testError e], cs)
      | (ExecOut.fault e, cs) => (false, [Diag.testError e], cs)
      | (ExecOut.unknownAction a, cs) => (false, [Diag.unknownStepAction a], cs)
  else (false, [Diag.unknownSetupAction t.setup.action], [])

/-- One entry of `self.results`. -/
structure TestResult where
  id : String
  name : String
  status : String
deriving Repr, DecidableEq

/-- The loaded test-vector document. -/
structure TestSuite where
  version : String
  spec_version : String
  tests : List Test

/-- The body of `run_all_tests`'s loop: run one test, append its result
record, and bump the `passed` or `failed` counter. -/
def tallyStep (impl : IUT) (acc : Nat × Nat × List TestResult) (t : Test) :
    Nat × Nat × List TestResult :=
  let r := (run_test impl t).1
  let res := acc.2.2 ++ [⟨t.id, t.name, if r then "PASSED" else "FAILED"⟩]
  if r then (acc.1 + 1, acc.2.1, res) else (acc.1, acc.2.1 + 1, res)

/-- `ConformanceValidator.run_all_tests`: run every test in document order,
accumulating the `passed`/`failed` tallies and the result records; the
returned verdict is `failed == 0`. -/
def run_all_tests (impl : IUT) (suite : TestSuite) : Bool × List TestResult :=
  let acc := suite.tests.foldl (tallyStep impl) (0, 0, [])
  (acc.2.1 == 0, acc.2.2)

/-- The `test_results` block and conformance statement of the report. -/
structure Report where
  spec_version : String
  test_suite_version : String
  total : Nat
  passed : Nat
  failed : Nat
  errors : Nat
  pass_rate : ℚ
  test_details : List TestResult
  conformance_statement : String

/-- The adjective chosen by the conformance statement's f-string. -/
def conformanceWord (failed : Nat) : String :=
  if failed == 0 then "fully conformant" else "NOT conformant"

/-- `ConformanceValidator.generate_report` on the accumulated results:
`passed` counts the `PASSED` records, `failed = total - passed`, and
`pass_rate = passed / total * 100` guarded by `if total > 0 else 0`. -/
def generate_report (results : List TestResult) (suite : TestSuite) : Report :=
  let total := results.length
  let passed := (results.filter (fun r => r.status == "PASSED")).length
  let failed := total - passed
  ⟨suite.spec_version, suite.version, total, passed, failed, 0,
   if total > 0 then (passed : ℚ) / (total : ℚ) * 100 else 0,
   results,
   "This implementation is " ++ conformanceWord failed ++
     " with the Aifeels Specification v" ++ suite.spec_version ++ "."⟩

/-- A minimal conforming subject used to instantiate the theorems: a fresh
empty state, no native `advance_time`, inert event processing and decay, and
a constant recommended action. -/
def demoIUT : IUT :=
  ⟨Except.ok [], false,
   fun a _ => Except.ok a,
   fun a _ => Except.ok a,
   fun a => Except.ok a,
   fun _ => Except.ok (PyVal.str "soothe")⟩

/-- A decay-fallback loop against a never-raising subject makes exactly the
requested number of `apply_decay` calls and nothing else. -/
lemma decayLoop_calls (impl : IUT) (hok : ∀ a, ∃ b, impl.applyDecay a = Except.ok b) :
    ∀ (n : Nat) (st : Attrs),
      (decayLoop impl st n).2 = List.replicate n SubjCall.applyDecay := by
  intro n
  induction n with
  | zero => intro st; rfl
  | succ k ih =>
    intro st
    obtain ⟨b, hb⟩ := hok st
    simp [decayLoop, hb, ih, List.replicate_succ]

/-- C1: for an `advance_time` step against a subject without the
`advance_time` capability (and whose `apply_decay` does not raise), the
interpreter invokes `apply_decay` exactly `floor(seconds / 300)` times and
makes no other subject call, discarding the remainder; the second conjunct
says the count, as an integer, is exactly the floor quotient. -/
theorem decay_fallback_interval_count (impl : IUT) (st : Attrs) (ev : PyVal) (seconds : Int)
    (hcap : impl.hasAdvanceTime = false)
    (hok : ∀ a, ∃ b, impl.applyDecay a = Except.ok b)
    (hpos : 0 ≤ seconds) :
    (execStep impl st ⟨"advance_time", ev, seconds⟩).2
        = List.replicate (Int.fdiv seconds 300).toNat SubjCall.applyDecay
      ∧ (((Int.fdiv seconds 300).toNat : Int) = Int.fdiv seconds 300) := by
  constructor
  · simp [execStep, hcap, decayLoop_calls impl hok]
  · have h0 : 0 ≤ Int.fdiv seconds 300 := Int.fdiv_nonneg hpos (by norm_num)
    omega

/-- Advancing by 899 seconds triggers exactly 2 decay calls, by 300 exactly
one, and by 299 none, on the demo subject. -/
theorem decay_fallback_interval_count_witness :
    (execStep demoIUT [] ⟨"advance_time", PyVal.none, 899⟩).2
        = List.replicate 2 SubjCall.applyDecay
      ∧ (execStep demoIUT [] ⟨"advance_time", PyVal.none, 300⟩).2
        = List.replicate 1 SubjCall.applyDecay
      ∧ (execStep demoIUT [] ⟨"advance_time", PyVal.none, 299⟩).2
        = List.replicate 0 SubjCall.applyDecay :=
  ⟨(decay_fallback_interval_count demoIUT [] PyVal.none 899 rfl
      (fun a => ⟨a, rfl⟩) (by decide)).1,
   (decay_fallback_interval_count demoIUT [] PyVal.none 300 rfl
      (fun a => ⟨a, rfl⟩) (by decide)).1,
   (decay_fallback_interval_count demoIUT [] PyVal.none 299 rfl
      (fun a => ⟨a, rfl⟩) (by decide)).1⟩

/-- C2: an `approximately` assertion whose resolved actual value and
expected value are both numeric never raises, and passes exactly when
`|actual - expected|` is at most the document's tolerance, the boundary
case included; an absent `tolerance` field defaults to exactly `0.001`. -/
theorem approximately_passes_iff_within_tolerance (state : PyVal) (a : Assertion)
    (qa qe : ℚ) (hty : a.type = "approximately")
    (hres : get_nested_value state a.path = Except.ok (PyVal.num qa))
    (hexp : a.expected = PyVal.num qe) :
    ∃ b ds, assert_value state a = Except.ok (b, ds)
      ∧ (b = true ↔ |qa - qe| ≤ a.tolerance.getD (1 / 1000)) := by
  have key : assert_value state a =
      (if a.tolerance.getD (1 / 1000) < |qa - qe|
       then Except.ok (false, [Diag.approxMismatch a.path a.expected (PyVal.num qa)
         (a.tolerance.getD (1 / 1000))])
       else Except.ok (true, [])) := by
    unfold assert_value
    rw [hres, hty]
    simp [pySub, hexp, pyNumVal]
  rcases lt_or_le (a.tolerance.getD (1 / 1000)) |qa - qe| with h | h
  · exact ⟨false, _, by rw [key, if_pos h],
      by simp only [Bool.false_eq_true, false_iff, not_le]; exact h⟩
  · exact ⟨true, [], by rw [key, if_neg (not_lt.mpr h)],
      by simp only [eq_self_iff_true, true_iff]; exact h⟩

/-- A boundary instance of C2: actual `1`, expected `1.001`, omitted
tolerance; the deviation equals the default tolerance and the assertion
passes. -/
theorem approximately_passes_iff_within_tolerance_witness :
    ∃ b ds, assert_value (PyVal.obj [("trust", PyVal.num 1)])
        ⟨"trust", PyVal.num (1001 / 1000), "approximately", Option.none⟩
          = Except.ok (b, ds)
      ∧ (b = true ↔ |(1 : ℚ) - 1001 / 1000| ≤ (Option.none : Option ℚ).getD (1 / 1000)) :=
  approximately_passes_iff_within_tolerance
    (PyVal.obj [("trust", PyVal.num 1)])
    ⟨"trust", PyVal.num (1001 / 1000), "approximately", Option.none⟩
    1 (1001 / 1000) rfl rfl rfl

/-- C3 fails as stated: Python compares booleans as the numbers `1`/`0`, so
an `equals` assertion with boolean actual `True` and numeric expected `1`
passes even though the two values are of different types. -/
theorem equals_bool_num_coercion_cex :
    assert_value (PyVal.obj [("flag", PyVal.bool true)])
        ⟨"flag", PyVal.num 1, "equals", Option.none⟩
      = Except.ok (true, [])
    ∧ PyVal.bool true ≠ PyVal.num 1 :=
  ⟨rfl, by intro h; exact PyVal.noConfusion h⟩

/-- C3 as amended: an `equals` assertion passes exactly when the resolved
actual value and the expected value are Python-equal, which is the value
model's structural equality except that booleans compare as the numbers `1`
and `0`; besides the numeric types no cross-type pair ever compares equal
(Python-equal values are numeric on both sides or of the same type). -/
theorem equals_passes_iff_python_eq :
    (∀ (state : PyVal) (a : Assertion) (actual : PyVal), a.type = "equals" →
      get_nested_value state a.path = Except.ok actual →
      assert_value state a =
        (if pyEq actual a.expected then Except.ok (true, [])
         else Except.ok (false, [Diag.mismatch a.path a.expected actual])))
    ∧ (∀ x y, pyEq x y = true →
        typeName x = typeName y ∨ ((pyNumVal x).isSome ∧ (pyNumVal y).isSome)) := by
  constructor
  · intro state a actual hty hres
    unfold assert_value
    rw [hres, hty]
    simp
  · intro x y h
    cases x <;> cases y <;> simp_all [pyEq, typeName, pyNumVal]

/-- Instance of the amended C3: a string actual equal to the string
expected passes, and a string actual never Python-equals a number. -/
theorem equals_passes_iff_python_eq_witness :
    (assert_value (PyVal.obj [("mood", PyVal.str "calm")])
        ⟨"mood", PyVal.str "calm", "equals", Option.none⟩ =
      (if pyEq (PyVal.str "calm") (PyVal.str "calm") then Except.ok (true, [])
       else Except.ok (false, [Diag.mismatch "mood" (PyVal.str "calm") (PyVal.str "calm")])))
    ∧ (typeName (PyVal.str "a") = typeName (PyVal.str "a")
        ∨ ((pyNumVal (PyVal.str "a")).isSome ∧ (pyNumVal (PyVal.str "a")).isSome)) :=
  ⟨equals_passes_iff_python_eq.1 (PyVal.obj [("mood", PyVal.str "calm")])
      ⟨"mood", PyVal.str "calm", "equals", Option.none⟩ (PyVal.str "calm") rfl rfl,
   equals_passes_iff_python_eq.2 (PyVal.str "a") (PyVal.str "a") rfl⟩

/-- Result of one assertion as `run_test`'s loop scores it: the boolean the
evaluation returned, or `false` for an assertion whose evaluation raised. -/
def assertionPassed (st : Attrs) (a : Assertion) : Bool :=
  match checkAssertion st a with
  | Except.ok (b, _) => b
  | Except.error _ => false

/-- The diagnostics one assertion's evaluation emits (none when it raises). -/
def assertionDiags (st : Attrs) (a : Assertion) : List Diag :=
  match checkAssertion st a with
  | Except.ok (_, ds) => ds
  | Except.error _ => []

/-- When no assertion raises, the assertion loop reaches every assertion:
the verdict conjoins all the individual outcomes and the trace concatenates
all the individual diagnostics. -/
lemma checkAssertions_no_fault (st : Attrs) :
    ∀ (l : List Assertion), (∀ a ∈ l, ∃ r, checkAssertion st a = Except.ok r) →
      checkAssertions st l
        = (AssertsOut.done (l.all (assertionPassed st)), l.flatMap (assertionDiags st)) := by
  intro l
  induction l with
  | nil => intro _; rfl
  | cons a rest ih =>
    intro h
    obtain ⟨⟨b, ds⟩, hr⟩ := h a (by simp)
    have hrest := ih (fun x hx => h x (by simp [hx]))
    simp [checkAssertions, hr, hrest, assertionPassed, assertionDiags]

/-- C4 fails as stated: an `approximately` assertion over a non-numeric
actual value raises a `TypeError` that is caught only at the test boundary,
so the remaining assertions are skipped.  Here the first assertion faults
and the second — a failing `equals` assertion, which emits a mismatch
diagnostic whenever it is evaluated (second conjunct) — leaves no trace in
the test's output. -/
theorem assertion_fault_skips_rest_cex :
    run_test demoIUT
      ⟨"T1", "fault", ⟨"initialize", some [("mood", PyVal.str "calm"), ("x", PyVal.num 1)]⟩,
       [],
       [⟨"mood", PyVal.num 5, "approximately", Option.none⟩,
        ⟨"x", PyVal.num 2, "equals", Option.none⟩]⟩
      = (false, [Diag.testError (PyErr.typeError "unsupported operand type for -")], [])
    ∧ checkAssertion [("mood", PyVal.str "calm"), ("x", PyVal.num 1)]
        ⟨"x", PyVal.num 2, "equals", Option.none⟩
      = Except.ok (false, [Diag.mismatch "x" (PyVal.num 2) (PyVal.num 1)]) :=
  ⟨rfl, rfl⟩

/-- C4 as amended: provided no assertion raises an uncaught fault, every
assertion of the test is evaluated — each contributes its diagnostics and
the verdict is `Passed` iff all of them passed, with no short-circuit on a
failing assertion. -/
theorem assertions_all_evaluated_without_fault (impl : IUT) (t : Test) (st0 st : Attrs)
    (cs : List SubjCall)
    (hsetup : t.setup.action = "initialize")
    (hinit : impl.init = Except.ok st0)
    (hsteps : execSteps impl (applyInit st0 t.setup.initial_state) t.steps = (ExecOut.ok st, cs))
    (hnf : ∀ a ∈ t.assertions, ∃ r, checkAssertion st a = Except.ok r) :
    run_test impl t
      = (t.assertions.all (assertionPassed st), t.assertions.flatMap (assertionDiags st), cs) := by
  unfold run_test
  simp [hsetup, hinit, hsteps, checkAssertions_no_fault st t.assertions hnf]

/-- Concrete instance of the amended C4 on a one-assertion test. -/
theorem assertions_all_evaluated_without_fault_witness :
    run_test demoIUT
      ⟨"T2", "ok", ⟨"initialize", some [("x", PyVal.num 1)]⟩, [],
       [⟨"x", PyVal.num 2, "equals", Option.none⟩]⟩
      = ([⟨"x", PyVal.num 2, "equals", Option.none⟩].all (assertionPassed [("x", PyVal.num 1)]),
         [⟨"x", PyVal.num 2, "equals", Option.none⟩].flatMap (assertionDiags [("x", PyVal.num 1)]),
         []) :=
  assertions_all_evaluated_without_fault demoIUT
    ⟨"T2", "ok", ⟨"initialize", some [("x", PyVal.num 1)]⟩, [],
     [⟨"x", PyVal.num 2, "equals", Option.none⟩]⟩
    [] [("x", PyVal.num 1)] [] rfl rfl rfl
    (by intro a ha; rw [List.mem_singleton] at ha; subst ha; exact ⟨_, rfl⟩)

/-- C5: each path segment is resolved against the current value by trying
the named attribute first, then the dict entry, and otherwise failing with
an `AttributeError` naming the segment and the type of the value
(conjuncts 1-3); segments are processed left to right (conjunct 4); a
resolution error — missing attribute or missing dict key alike — makes the
enclosing assertion fail with the dedicated `cannotAccess` diagnostic
instead of crashing (conjunct 5), and that diagnostic is distinct from the
value-mismatch diagnostic (conjunct 6). -/
theorem path_resolution_and_address_error :
    (∀ (attrs : List (String × PyVal)) (k : String),
      getSeg (PyVal.obj attrs) k =
        (match attrs.lookup k with
         | some v => Except.ok v
         | Option.none => Except.error (PyErr.attributeError k (typeName (PyVal.obj attrs)))))
    ∧ (∀ (entries : List (String × PyVal)) (k : String),
      getSeg (PyVal.dict entries) k =
        (match entries.lookup k with
         | some v => Except.ok v
         | Option.none => Except.error (PyErr.keyError k)))
    ∧ (∀ (v : PyVal) (k : String),
        (∀ attrs, v ≠ PyVal.obj attrs) → (∀ entries, v ≠ PyVal.dict entries) →
        getSeg v k = Except.error (PyErr.attributeError k (typeName v)))
    ∧ (∀ (v : PyVal) (k : String) (rest : List String),
        resolveSegs v (k :: rest) =
          (match getSeg v k with
           | Except.ok v' => resolveSegs v' rest
           | Except.error e => Except.error e))
    ∧ (∀ (state : PyVal) (a : Assertion) (e : PyErr),
        get_nested_value state a.path = Except.error e →
        assert_value state a = Except.ok (false, [Diag.cannotAccess a.path e]))
    ∧ (∀ (p : String) (e : PyErr) (p' : String) (ex ac : PyVal),
        Diag.cannotAccess p e ≠ Diag.mismatch p' ex ac) := by
  refine ⟨?_, ?_, ?_, ?_, ?_, ?_⟩
  · intro attrs k; rfl
  · intro entries k; rfl
  · intro v k hobj hdict
    cases v with
    | obj attrs => exact absurd rfl (hobj attrs)
    | dict entries => exact absurd rfl (hdict entries)
    | none => rfl
    | bool b => rfl
    | num q => rfl
    | str s => rfl
    | list xs => rfl
  · intro v k rest; rfl
  · intro state a e h
    unfold assert_value
    rw [h]
  · intro p e p' ex ac h
    exact Diag.noConfusion h

/-- Concrete instances of C5: attribute hit, dict miss (`KeyError`), and a
missing attribute turned into a failing — not crashing — assertion with the
`cannotAccess` diagnostic. -/
theorem path_resolution_and_address_error_witness :
    getSeg (PyVal.obj [("a", PyVal.num 1)]) "a" =
      (match List.lookup "a" [("a", PyVal.num 1)] with
       | some v => Except.ok v
       | Option.none => Except.error (PyErr.attributeError "a" (typeName (PyVal.obj [("a", PyVal.num 1)]))))
    ∧ getSeg (PyVal.dict [("k", PyVal.num 2)]) "missing" =
      (match List.lookup "missing" [("k", PyVal.num 2)] with
       | some v => Except.ok v
       | Option.none => Except.error (PyErr.keyError "missing"))
    ∧ getSeg (PyVal.str "s") "x" = Except.error (PyErr.attributeError "x" (typeName (PyVal.str "s")))
    ∧ assert_value (PyVal.obj []) ⟨"missing", PyVal.num 1, "equals", Option.none⟩
      = Except.ok (false, [Diag.cannotAccess "missing" (PyErr.attributeError "missing" "object")]) :=
  ⟨path_resolution_and_address_error.1 [("a", PyVal.num 1)] "a",
   path_resolution_and_address_error.2.1 [("k", PyVal.num 2)] "missing",
   path_resolution_and_address_error.2.2.1 (PyVal.str "s") "x"
     (fun _ h => PyVal.noConfusion h) (fun _ h => PyVal.noConfusion h),
   path_resolution_and_address_error.2.2.2.2.1 (PyVal.obj [])
     ⟨"missing", PyVal.num 1, "equals", Option.none⟩
     (PyErr.attributeError "missing" "object") rfl⟩

/-- The result record `run_all_tests` appends for one test. -/
def resultRec (impl : IUT) (t : Test) : TestResult :=
  ⟨t.id, t.name, if (run_test impl t).1 then "PASSED" else "FAILED"⟩

/-- The result list accumulated by the suite loop is one record per test,
each computed by an independent `run_test` invocation. -/
lemma tally_results (impl : IUT) :
    ∀ (ts : List Test) (p f : Nat) (res : List TestResult),
      (ts.foldl (tallyStep impl) (p, f, res)).2.2 = res ++ ts.map (resultRec impl) := by
  intro ts
  induction ts with
  | nil => intro p f res; simp
  | cons t rest ih =>
    intro p f res
    cases hr : (run_test impl t).1 <;>
      simp [tallyStep, hr, ih, resultRec]

/-- The `failed` counter accumulated by the suite loop counts the tests
whose `run_test` verdict is `false`. -/
lemma tally_failed (impl : IUT) :
    ∀ (ts : List Test) (p f : Nat) (res : List TestResult),
      (ts.foldl (tallyStep impl) (p, f, res)).2.1
        = f + ts.countP (fun t => !(run_test impl t).1) := by
  intro ts
  induction ts with
  | nil => intro p f res; simp
  | cons t rest ih =>
    intro p f res
    cases hr : (run_test impl t).1
    all_goals simp [tallyStep, hr, ih, List.countP_cons]
    all_goals omega

/-- C6: the suite runs every test and scores it independently — the result
list is exactly one record per test, each derived from `run_test` on that
test alone against the freshly-supplied implementation (first conjunct), so
a fault in one test cannot touch another's subject or result; and a test's
verdict can only be `true` when its setup is recognized, construction and
every step succeeded and the assertion phase finished without fault —
contrapositively, any fault or unknown action is scored as a failure
(second conjunct). -/
theorem test_isolation_and_fault_containment :
    (∀ (impl : IUT) (suite : TestSuite),
      (run_all_tests impl suite).2 = suite.tests.map (resultRec impl))
    ∧ (∀ (impl : IUT) (t : Test), (run_test impl t).1 = true →
        t.setup.action = "initialize"
        ∧ ∃ st0 st cs, impl.init = Except.ok st0
            ∧ execSteps impl (applyInit st0 t.setup.initial_state) t.steps = (ExecOut.ok st, cs)
            ∧ (checkAssertions st t.assertions).1 = AssertsOut.done true) := by
  constructor
  · intro impl suite
    show (suite.tests.foldl (tallyStep impl) (0, 0, [])).2.2 = _
    rw [tally_results impl suite.tests 0 0 []]
    rfl
  · intro impl t h
    unfold run_test at h
    split at h
    · rename_i hs
      refine ⟨by simpa using hs, ?_⟩
      split at h
      · simp at h
      · rename_i st0 hinit
        split at h
        · rename_i st cs hsteps
          split at h
          · rename_i b ds hasserts
            exact ⟨st0, st, cs, hinit, hsteps, by rw [hasserts]; simpa using h⟩
          · simp at h
        · simp at h
        · simp at h
    · simp at h

/-- Concrete instance of C6: a two-test suite whose first test uses an
unknown step action still runs the second test, which passes on its own
fresh subject; and the passing verdict of the second test certifies its
fault-free phases. -/
theorem test_isolation_and_fault_containment_witness :
    (run_all_tests demoIUT
        ⟨"1.0", "0.3", [⟨"T1", "bad", ⟨"initialize", Option.none⟩,
            [⟨"teleport", PyVal.none, 0⟩], []⟩,
          ⟨"T2", "good", ⟨"initialize", some [("x", PyVal.num 1)]⟩, [],
            [⟨"x", PyVal.num 1, "equals", Option.none⟩]⟩]⟩).2
      = [⟨"T1", "bad", ⟨"initialize", Option.none⟩,
            [⟨"teleport", PyVal.none, 0⟩], []⟩,
         ⟨"T2", "good", ⟨"initialize", some [("x", PyVal.num 1)]⟩, [],
            [⟨"x", PyVal.num 1, "equals", Option.none⟩]⟩].map (resultRec demoIUT)
    ∧ (⟨"T2", "good", ⟨"initialize", some [("x", PyVal.num 1)]⟩, [],
          [⟨"x", PyVal.num 1, "equals", Option.none⟩]⟩ : Test).setup.action = "initialize"
    ∧ ∃ st0 st cs, demoIUT.init = Except.ok st0
        ∧ execSteps demoIUT (applyInit st0 (some [("x", PyVal.num 1)]))
            [] = (ExecOut.ok st, cs)
        ∧ (checkAssertions st [⟨"x", PyVal.num 1, "equals", Option.none⟩]).1
            = AssertsOut.done true :=
  ⟨test_isolation_and_fault_containment.1 demoIUT
      ⟨"1.0", "0.3", [⟨"T1", "bad", ⟨"initialize", Option.none⟩,
          [⟨"teleport", PyVal.none, 0⟩], []⟩,
        ⟨"T2", "good", ⟨"initialize", some [("x", PyVal.num 1)]⟩, [],
          [⟨"x", PyVal.num 1, "equals", Option.none⟩]⟩]⟩,
   test_isolation_and_fault_containment.2 demoIUT
      ⟨"T2", "good", ⟨"initialize", some [("x", PyVal.num 1)]⟩, [],
        [⟨"x", PyVal.num 1, "equals", Option.none⟩]⟩ rfl⟩

/-- Overwriting an existing attribute makes the written value the one
`lookup` finds. -/
lemma lookup_map_overwrite (k : String) (v : PyVal) :
    ∀ (st : Attrs), (st.lookup k).isSome →
      (st.map (fun kv => if kv.1 == k then (k, v) else kv)).lookup k = some v := by
  intro st
  induction st with
  | nil => intro h; simp at h
  | cons hd rest ih =>
    intro h
    rcases hd with ⟨k', v'⟩
    simp only [List.map_cons]
    by_cases hk : k' = k
    · have hf : (if ((k', v') : String × PyVal).1 == k then ((k : String), v) else (k', v'))
          = (k, v) := by simp [hk]
      rw [hf]
      simp [List.lookup]
    · have hk1 : (((k', v') : String × PyVal).1 == k) = false := by simp [hk]
      have hk2 : (k == k') = false := by simp [Ne.symm hk]
      have hf : (if ((k', v') : String × PyVal).1 == k then ((k : String), v) else (k', v'))
          = (k', v') := by rw [hk1]; rfl
      rw [hf]
      simp only [List.lookup, hk2] at h ⊢
      exact ih h

/-- Appending a fresh attribute makes the written value the one `lookup`
finds. -/
lemma lookup_append_new (k : String) (v : PyVal) :
    ∀ (st : Attrs), st.lookup k = Option.none → (st ++ [(k, v)]).lookup k = some v := by
  intro st
  induction st with
  | nil => intro _; simp [List.lookup]
  | cons hd rest ih =>
    intro h
    rcases hd with ⟨k', v'⟩
    by_cases hk : k = k'
    · subst hk
      simp only [List.lookup, beq_self_eq_true] at h
      exact absurd h (by simp)
    · have hk2 : (k == k') = false := by simp [hk]
      simp only [List.cons_append, List.lookup, hk2] at h ⊢
      exact ih h

/-- `setattr` followed by attribute lookup returns the value written. -/
lemma lookup_setAttr (st : Attrs) (k : String) (v : PyVal) :
    (setAttr st k v).lookup k = some v := by
  unfold setAttr
  by_cases h : (st.lookup k).isSome
  · rw [if_pos h]
    exact lookup_map_overwrite k v st h
  · rw [if_neg h]
    exact lookup_append_new k v st (Option.not_isSome_iff_eq_none.mp h)

/-- C7 fails as stated: whether the capture exists is tracked by presence of
the `_recommended_action` attribute, not by whether a `get_recommended_action`
step ran.  A setup whose `initial_state` plants that attribute makes a
`recommended_action` assertion pass — verdict `true`, no diagnostic — in a
test with no steps at all, where the claim demands a "not captured"
failure. -/
theorem recommended_action_precaptured_cex :
    run_test demoIUT
      ⟨"T4", "pre", ⟨"initialize", some [("_recommended_action", PyVal.str "soothe")]⟩, [],
       [⟨"recommended_action", PyVal.str "soothe", "equals", Option.none⟩]⟩
      = (true, [], []) :=
  rfl

/-- C7 as amended: the uncaptured check is by presence of the subject's
`_recommended_action` attribute.  When the attribute is absent the
assertion fails with the dedicated `notCaptured` diagnostic instead of
crashing (conjunct 1); when it is present — normally because a preceding
`get_recommended_action` step stored the query result there (conjuncts 3-4),
though a setup or the subject itself may also have planted it — the stored
value is compared against the expected value (conjunct 2); and the
`notCaptured` diagnostic is distinct from both mismatch diagnostics
(conjunct 5). -/
theorem recommended_action_capture_semantics :
    (∀ (st : Attrs) (a : Assertion), a.path = "recommended_action" →
      st.lookup "_recommended_action" = Option.none →
      checkAssertion st a = Except.ok (false, [Diag.notCaptured]))
    ∧ (∀ (st : Attrs) (a : Assertion) (v : PyVal), a.path = "recommended_action" →
      st.lookup "_recommended_action" = some v →
      checkAssertion st a
        = (if pyEq v a.expected then Except.ok (true, [])
           else Except.ok (false, [Diag.actionMismatch a.expected v])))
    ∧ (∀ (impl : IUT) (st : Attrs) (s : Step) (v : PyVal),
        s.action = "get_recommended_action" → impl.recommendedAction st = Except.ok v →
        execStep impl st s
          = (ExecOut.ok (setAttr st "_recommended_action" v), [SubjCall.recommendedAction]))
    ∧ (∀ (st : Attrs) (k : String) (v : PyVal), (setAttr st k v).lookup k = some v)
    ∧ (∀ (p : String) (ex ac ex' ac' : PyVal),
        Diag.notCaptured ≠ Diag.mismatch p ex ac ∧ Diag.notCaptured ≠ Diag.actionMismatch ex' ac') := by
  refine ⟨?_, ?_, ?_, ?_, ?_⟩
  · intro st a ha hslot
    simp [checkAssertion, ha, hslot]
  · intro st a v ha hslot
    simp [checkAssertion, ha, hslot]
  · intro impl st s v hs himpl
    simp [execStep, hs, himpl]
  · intro st k v
    exact lookup_setAttr st k v
  · intro p ex ac ex' ac'
    exact ⟨fun h => Diag.noConfusion h, fun h => Diag.noConfusion h⟩

/-- Concrete instances of the amended C7: no capture yields the
`notCaptured` failure; a captured value is compared; the
`get_recommended_action` step writes the capture slot. -/
theorem recommended_action_capture_semantics_witness :
    checkAssertion [] ⟨"recommended_action", PyVal.str "soothe", "equals", Option.none⟩
      = Except.ok (false, [Diag.notCaptured])
    ∧ checkAssertion [("_recommended_action", PyVal.str "soothe")]
        ⟨"recommended_action", PyVal.str "soothe", "equals", Option.none⟩
      = (if pyEq (PyVal.str "soothe") (PyVal.str "soothe") then Except.ok (true, [])
         else Except.ok (false, [Diag.actionMismatch (PyVal.str "soothe") (PyVal.str "soothe")]))
    ∧ execStep demoIUT [] ⟨"get_recommended_action", PyVal.none, 0⟩
      = (ExecOut.ok (setAttr [] "_recommended_action" (PyVal.str "soothe")),
         [SubjCall.recommendedAction]) :=
  ⟨recommended_action_capture_semantics.1 []
      ⟨"recommended_action", PyVal.str "soothe", "equals", Option.none⟩ rfl rfl,
   recommended_action_capture_semantics.2.1 [("_recommended_action", PyVal.str "soothe")]
      ⟨"recommended_action", PyVal.str "soothe", "equals", Option.none⟩
      (PyVal.str "soothe") rfl rfl,
   recommended_action_capture_semantics.2.2.1 demoIUT []
      ⟨"get_recommended_action", PyVal.none, 0⟩ (PyVal.str "soothe") rfl rfl⟩

/-- C10: for an assertion on the reserved `recommended_action` path whose
capture slot holds `v`, the outcome is the plain equality comparison of `v`
against `expected` — the right-hand side mentions neither the assertion's
`type` nor its `tolerance`, so `approximately` (or any other type) neither
enables tolerance comparison nor triggers the unknown-assertion-type
failure. -/
theorem recommended_action_ignores_assert_type (st : Attrs) (v expct : PyVal)
    (ty : String) (tol : Option ℚ)
    (hslot : st.lookup "_recommended_action" = some v) :
    checkAssertion st ⟨"recommended_action", expct, ty, tol⟩
      = (if pyEq v expct then Except.ok (true, [])
         else Except.ok (false, [Diag.actionMismatch expct v])) := by
  simp [checkAssertion, hslot]

/-- Concrete instance of C10: a captured `"soothe"` against expected
`"escalate"` under type `approximately` with a huge tolerance still fails
by plain equality. -/
theorem recommended_action_ignores_assert_type_witness :
    checkAssertion [("_recommended_action", PyVal.str "soothe")]
        ⟨"recommended_action", PyVal.str "escalate", "approximately", some 100⟩
      = (if pyEq (PyVal.str "soothe") (PyVal.str "escalate") then Except.ok (true, [])
         else Except.ok (false, [Diag.actionMismatch (PyVal.str "escalate") (PyVal.str "soothe")])) :=
  recommended_action_ignores_assert_type [("_recommended_action", PyVal.str "soothe")]
    (PyVal.str "soothe") (PyVal.str "escalate") "approximately" (some 100) rfl

/-- The result list of a full suite run: one record per test, in document
order, each computed by `run_test` on that test alone. -/
lemma run_all_tests_results (impl : IUT) (suite : TestSuite) :
    (run_all_tests impl suite).2 = suite.tests.map (resultRec impl) := by
  show (suite.tests.foldl (tallyStep impl) (0, 0, [])).2.2 = _
  rw [tally_results impl suite.tests 0 0 []]
  rfl

/-- The suite verdict is the `failed == 0` test on the failure tally. -/
lemma run_all_tests_verdict (impl : IUT) (suite : TestSuite) :
    (run_all_tests impl suite).1
      = (suite.tests.countP (fun t => !(run_test impl t).1) == 0) := by
  show ((suite.tests.foldl (tallyStep impl) (0, 0, [])).2.1 == 0) = _
  rw [tally_failed impl suite.tests 0 0 []]
  simp

/-- There are as many result records as tests. -/
lemma length_results (impl : IUT) (suite : TestSuite) :
    (run_all_tests impl suite).2.length = suite.tests.length := by
  rw [run_all_tests_results, List.length_map]

/-- Counting `PASSED` records counts the tests with a `true` verdict. -/
lemma passedCount_results (impl : IUT) (suite : TestSuite) :
    ((run_all_tests impl suite).2.filter (fun r => r.status == "PASSED")).length
      = suite.tests.countP (fun t => (run_test impl t).1) := by
  rw [run_all_tests_results, ← List.countP_eq_length_filter, List.countP_map]
  refine List.countP_congr ?_
  intro t ht
  cases hv : (run_test impl t).1 <;> simp [resultRec, Function.comp, hv]

/-- Counting `FAILED` records counts the tests with a `false` verdict. -/
lemma failedCount_results (impl : IUT) (suite : TestSuite) :
    ((run_all_tests impl suite).2.filter (fun r => r.status == "FAILED")).length
      = suite.tests.countP (fun t => !(run_test impl t).1) := by
  rw [run_all_tests_results, ← List.countP_eq_length_filter, List.countP_map]
  refine List.countP_congr ?_
  intro t ht
  cases hv : (run_test impl t).1 <;> simp [resultRec, Function.comp, hv]

/-- Every test verdict is counted once, as a pass or as a failure. -/
lemma countP_verdict_split (impl : IUT) (ts : List Test) :
    ts.countP (fun t => (run_test impl t).1) + ts.countP (fun t => !(run_test impl t).1)
      = ts.length := by
  induction ts with
  | nil => rfl
  | cons t rest ih =>
    cases hv : (run_test impl t).1
    all_goals simp [List.countP_cons, hv]
    all_goals omega

/-- C8: the report's `pass_rate` is `passed / total * 100` whenever the
suite has at least one test, and exactly `0` — via the `total > 0` guard,
not a division fault — when the test array is empty. -/
theorem report_pass_rate :
    (∀ (impl : IUT) (suite : TestSuite), suite.tests ≠ [] →
      (generate_report (run_all_tests impl suite).2 suite).pass_rate
        = (((run_all_tests impl suite).2.filter (fun r => r.status == "PASSED")).length : ℚ)
            / ((run_all_tests impl suite).2.length : ℚ) * 100)
    ∧ (∀ (impl : IUT) (suite : TestSuite), suite.tests = [] →
      (generate_report (run_all_tests impl suite).2 suite).pass_rate = 0) := by
  constructor
  · intro impl suite hne
    have hlen : 0 < (run_all_tests impl suite).2.length := by
      rw [length_results]
      exact List.length_pos.mpr hne
    simp only [generate_report]
    rw [if_pos hlen]
  · intro impl suite he
    have hres : (run_all_tests impl suite).2 = [] := by
      rw [run_all_tests_results, he]
      rfl
    simp [generate_report, hres]

/-- Concrete instances of C8: a one-test suite gets `passed/total*100`; the
empty suite gets pass rate `0`. -/
theorem report_pass_rate_witness :
    (generate_report
        (run_all_tests demoIUT ⟨"1.0", "0.3",
          [⟨"T2", "good", ⟨"initialize", some [("x", PyVal.num 1)]⟩, [],
            [⟨"x", PyVal.num 1, "equals", Option.none⟩]⟩]⟩).2
        ⟨"1.0", "0.3",
          [⟨"T2", "good", ⟨"initialize", some [("x", PyVal.num 1)]⟩, [],
            [⟨"x", PyVal.num 1, "equals", Option.none⟩]⟩]⟩).pass_rate
      = (((run_all_tests demoIUT ⟨"1.0", "0.3",
            [⟨"T2", "good", ⟨"initialize", some [("x", PyVal.num 1)]⟩, [],
              [⟨"x", PyVal.num 1, "equals", Option.none⟩]⟩]⟩).2.filter
              (fun r => r.status == "PASSED")).length : ℚ)
          / ((run_all_tests demoIUT ⟨"1.0", "0.3",
            [⟨"T2", "good", ⟨"initialize", some [("x", PyVal.num 1)]⟩, [],
              [⟨"x", PyVal.num 1, "equals", Option.none⟩]⟩]⟩).2.length : ℚ) * 100
    ∧ (generate_report (run_all_tests demoIUT ⟨"1.0", "0.3", []⟩).2 ⟨"1.0", "0.3", []⟩).pass_rate
      = 0 :=
  ⟨report_pass_rate.1 demoIUT ⟨"1.0", "0.3",
      [⟨"T2", "good", ⟨"initialize", some [("x", PyVal.num 1)]⟩, [],
        [⟨"x", PyVal.num 1, "equals", Option.none⟩]⟩]⟩ (by simp),
   report_pass_rate.2 demoIUT ⟨"1.0", "0.3", []⟩ rfl⟩

/-- C9: the suite verdict returned by `run_all_tests` is `true` exactly when
no result record is `FAILED` (first conjunct); the empty suite is therefore
conformant (second conjunct); and the report's conformance statement reads
"fully conformant" — referencing the spec version — exactly when the failed
count is zero (third conjunct). -/
theorem suite_verdict_iff_no_failures :
    (∀ (impl : IUT) (suite : TestSuite),
      ((run_all_tests impl suite).1 = true
        ↔ ((run_all_tests impl suite).2.filter (fun r => r.status == "FAILED")).length = 0))
    ∧ (∀ (impl : IUT) (suite : TestSuite), suite.tests = [] →
        (run_all_tests impl suite).1 = true)
    ∧ (∀ (impl : IUT) (suite : TestSuite),
      ((generate_report (run_all_tests impl suite).2 suite).conformance_statement
          = "This implementation is fully conformant with the Aifeels Specification v"
              ++ suite.spec_version ++ "."
        ↔ ((run_all_tests impl suite).2.filter (fun r => r.status == "FAILED")).length = 0)) := by
  refine ⟨?_, ?_, ?_⟩
  · intro impl suite
    rw [run_all_tests_verdict impl suite, failedCount_results impl suite]
    exact beq_iff_eq
  · intro impl suite he
    rw [run_all_tests_verdict impl suite, he]
    rfl
  · intro impl suite
    have hfc := failedCount_results impl suite
    have hpc := passedCount_results impl suite
    have hlen := length_results impl suite
    have hsplit := countP_verdict_split impl suite.tests
    simp only [generate_report]
    constructor
    · intro h
      by_contra hne
      have hpos : 0 < suite.tests.countP (fun t => !(run_test impl t).1) := by
        rw [hfc] at hne
        omega
      have hfail : (run_all_tests impl suite).2.length
          - ((run_all_tests impl suite).2.filter (fun r => r.status == "PASSED")).length ≠ 0 := by
        rw [hlen, hpc]
        omega
      have hword : conformanceWord ((run_all_tests impl suite).2.length
          - ((run_all_tests impl suite).2.filter (fun r => r.status == "PASSED")).length)
          = "NOT conformant" := by
        unfold conformanceWord
        rw [if_neg (by simpa using hfail)]
      rw [hword] at h
      have hlen1 := congrArg String.length h
      simp only [String.length_append] at hlen1
      have l1 : ("This implementation is " : String).length = 23 := by decide
      have l2 : ("NOT conformant" : String).length = 14 := by decide
      have l3 : (" with the Aifeels Specification v" : String).length = 33 := by decide
      have l4 : ("This implementation is fully conformant with the Aifeels Specification v" : String).length = 72 := by decide
      have l5 : ("." : String).length = 1 := by decide
      omega
    · intro h
      have hfail : (run_all_tests impl suite).2.length
          - ((run_all_tests impl suite).2.filter (fun r => r.status == "PASSED")).length = 0 := by
        rw [hfc] at h
        rw [hlen, hpc]
        omega
      rw [hfail]
      have hword : conformanceWord 0 = "fully conformant" := rfl
      rw [hword]
      have hlit : ("This implementation is " ++ "fully conformant"
            ++ " with the Aifeels Specification v" : String)
          = "This implementation is fully conformant with the Aifeels Specification v" := by decide
      rw [hlit]

/-- Concrete instance of C9 on the demo subject: a passing one-test suite is
conformant, the empty suite is conformant, and the passing suite's report is
worded "fully conformant". -/
theorem suite_verdict_iff_no_failures_witness :
    ((run_all_tests demoIUT ⟨"1.0", "0.3",
        [⟨"T2", "good", ⟨"initialize", some [("x", PyVal.num 1)]⟩, [],
          [⟨"x", PyVal.num 1, "equals", Option.none⟩]⟩]⟩).1 = true
      ↔ ((run_all_tests demoIUT ⟨"1.0", "0.3",
        [⟨"T2", "good", ⟨"initialize", some [("x", PyVal.num 1)]⟩, [],
          [⟨"x", PyVal.num 1, "equals", Option.none⟩]⟩]⟩).2.filter
          (fun r => r.status == "FAILED")).length = 0)
    ∧ (run_all_tests demoIUT ⟨"1.0", "0.3", []⟩).1 = true
    ∧ ((generate_report (run_all_tests demoIUT ⟨"1.0", "0.3",
        [⟨"T2", "good", ⟨"initialize", some [("x", PyVal.num 1)]⟩, [],
          [⟨"x", PyVal.num 1, "equals", Option.none⟩]⟩]⟩).2 ⟨"1.0", "0.3",
        [⟨"T2", "good", ⟨"initialize", some [("x", PyVal.num 1)]⟩, [],
          [⟨"x", PyVal.num 1, "equals", Option.none⟩]⟩]⟩).conformance_statement
        = "This implementation is fully conformant with the Aifeels Specification v"
            ++ ("0.3" : String) ++ "."
      ↔ ((run_all_tests demoIUT ⟨"1.0", "0.3",
        [⟨"T2", "good", ⟨"initialize", some [("x", PyVal.num 1)]⟩, [],
          [⟨"x", PyVal.num 1, "equals", Option.none⟩]⟩]⟩).2.filter
          (fun r => r.status == "FAILED")).length = 0) :=
  ⟨suite_verdict_iff_no_failures.1 demoIUT ⟨"1.0", "0.3",
      [⟨"T2", "good", ⟨"initialize", some [("x", PyVal.num 1)]⟩, [],
        [⟨"x", PyVal.num 1, "equals", Option.none⟩]⟩]⟩,
   suite_verdict_iff_no_failures.2.1 demoIUT ⟨"1.0", "0.3", []⟩ rfl,
   suite_verdict_iff_no_failures.2.2 demoIUT ⟨"1.0", "0.3",
      [⟨"T2", "good", ⟨"initialize", some [("x", PyVal.num 1)]⟩, [],
        [⟨"x", PyVal.num 1, "equals", Option.none⟩]⟩]⟩⟩
